import Mathlib

/-!
Shallow embedding of the semantic matching and query-aggregation engine of
the basic2 repository (backend/servers/resume_server.py, job_server.py,
aggregator_server.py).  Machine floats are modelled as rationals; the
external sentence-transformer encoder and the cosine-similarity kernel are
external collaborators and enter as function parameters.  All definitions
are executable.
-/

/-- Python substring test on character lists: the first list occurs
contiguously somewhere in the second (the semantics of `needle in hay`). -/
def charsHasSub : List Char → List Char → Bool
  | needle, [] => needle.isEmpty
  | needle, c :: rest => needle.isPrefixOf (c :: rest) || charsHasSub needle rest

/-- Python `needle in hay` on strings. -/
def pyIn (needle hay : String) : Bool := charsHasSub needle.data hay.data

/-- Python `any(word in q for word in ws)`. -/
def anyKeyword (q : String) (ws : List String) : Bool := ws.any (fun w => pyIn w q)

/-- Python `str.lower()` modelled as per-character ASCII lowering on the
underlying character list (the queries and rule keywords of this system are
ASCII; `String.toLower` itself is byte-position recursion that the kernel
cannot evaluate). -/
def pyLower (s : String) : String := ⟨s.data.map Char.toLower⟩

/-- Python truthiness of an optional embedding vector (`if resume.embedding:`):
false for `None` and for an empty vector. -/
def embTruthy : Option (List ℚ) → Bool
  | none => false
  | some e => !e.isEmpty

/-- Python truthiness of an optional string (`if request.exclude_user_id:`):
false for `None` and for the empty string. -/
def optStrTruthy : Option String → Bool
  | none => false
  | some s => !s.data.isEmpty

/-- Element count of the Python slice `l[:k]` for an int bound `k`:
`k` itself when nonnegative, `len(l) + k` clamped at zero when negative. -/
def pySliceLen (k : Int) (l : List α) : Nat :=
  if 0 ≤ k then k.toNat else ((l.length : Int) + k).toNat

/-- Python slice `l[:k]` with an int bound (`matches[:request.top_k]`). -/
def pySliceTake (k : Int) (l : List α) : List α := l.take (pySliceLen k l)

/-- Python `s[:200] + "..." if len(s) > 200 else s` (snippet rendering). -/
def snippet200 (s : String) : String :=
  if s.length > 200 then s.take 200 ++ "..." else s

/-- One insertion step of a stable descending insertion sort by a key:
`x` is placed before the first element whose key is not greater than its
own, so on equal keys `x` precedes every element already in the list. -/
def insertDescBy [LinearOrder β] (key : α → β) (x : α) : List α → List α
  | [] => [x]
  | h :: t => if key x < key h then h :: insertDescBy key x t else x :: h :: t

/-- Stable descending sort by a key: the model of Python
`list.sort(key=..., reverse=True)`.  Python's sort is stable and keeps
equal-key elements in input order even with `reverse=True`; a stable
descending sort is uniquely determined by the input order, so any stable
implementation agrees with this one. -/
def sortDescBy [LinearOrder β] (key : α → β) : List α → List α
  | [] => []
  | h :: t => insertDescBy key h (sortDescBy key t)

/-- Resume record (class `Resume`, resume_server.py). -/
structure Resume where
  id : String
  user_id : String
  name : String
  email : String
  skills : List String
  experience : String
  education : String
  raw_text : String
  embedding : Option (List ℚ)
deriving DecidableEq

/-- One entry of the match-candidates result list (the dict appended in the
similarity loop of `match_candidates`). -/
structure MatchEntry where
  resume_id : String
  name : String
  skills : List String
  similarity_score : ℚ
  experience_snippet : String
deriving DecidableEq

/-- Reply of `match_candidates`: the empty-store branch carries a message
and no total, the main branch carries the total and no message. -/
structure MatchCandidatesReply where
  «matches» : List MatchEntry
  total_candidates : Option Nat
  message : Option String
deriving DecidableEq

/-- The entry built for one resume inside the similarity loop of
`match_candidates`; the score is the cosine similarity of the query
embedding and the resume embedding, supplied by the `sim` parameter. -/
def mkMatchEntry (sim : List ℚ → List ℚ → ℚ) (job_embedding : List ℚ)
    (r : Resume) : MatchEntry :=
  ⟨r.id, r.name, r.skills, sim job_embedding (r.embedding.getD []),
   snippet200 r.experience⟩

/-- The exclusion filter of `match_candidates`: applied only when the
optional id is truthy (present and non-empty). -/
def filterExcludedResumes (resumes : List Resume)
    (exclude_user_id : Option String) : List Resume :=
  if optStrTruthy exclude_user_id then
    resumes.filter (fun r => r.user_id != exclude_user_id.getD (""))
  else resumes

/-- The scored entries of `match_candidates`, in collection (insertion)
order: one entry per remaining record with a truthy embedding. -/
def candidateEntries (sim : List ℚ → List ℚ → ℚ) (job_embedding : List ℚ)
    (resumes : List Resume) : List MatchEntry :=
  (resumes.filter (fun r => embTruthy r.embedding)).map (mkMatchEntry sim job_embedding)

/-- `match_candidates` (resume_server.py): on an empty store return an empty
list plus a message; otherwise drop the excluded owner, score every record
with a truthy embedding, sort stably descending by score and apply the
Python slice `[:top_k]`, returning the post-exclusion count as total. -/
def match_candidates (encode : String → List ℚ) (sim : List ℚ → List ℚ → ℚ)
    (job_description : String) (resumes : List Resume) (top_k : Int)
    (exclude_user_id : Option String) : MatchCandidatesReply :=
  if resumes.isEmpty then ⟨[], none, some ("No resumes available")⟩
  else
    let remaining := filterExcludedResumes resumes exclude_user_id
    let sorted := sortDescBy (fun e => e.similarity_score)
      (candidateEntries sim (encode job_description) remaining)
    ⟨pySliceTake top_k sorted, some remaining.length, none⟩

/-- Job record (class `JobPosting`, job_server.py). -/
structure JobPosting where
  id : String
  employer_id : String
  title : String
  company : String
  description : String
  requirements : List String
  location : String
  salary_range : Option String
  job_type : String
  embedding : Option (List ℚ)
deriving DecidableEq

/-- One entry of the match-jobs result list. -/
structure JobMatchEntry where
  job_id : String
  title : String
  company : String
  location : String
  similarity_score : ℚ
  description_snippet : String
  requirements : List String
  salary_range : Option String
deriving DecidableEq

/-- Reply of `match_jobs`, shaped like `MatchCandidatesReply`. -/
structure MatchJobsReply where
  «matches» : List JobMatchEntry
  total_jobs : Option Nat
  message : Option String
deriving DecidableEq

/-- The entry built for one job inside the similarity loop of `match_jobs`
(the requirements list is truncated to its first five elements). -/
def mkJobMatchEntry (sim : List ℚ → List ℚ → ℚ) (resume_embedding : List ℚ)
    (j : JobPosting) : JobMatchEntry :=
  ⟨j.id, j.title, j.company, j.location,
   sim resume_embedding (j.embedding.getD []),
   snippet200 j.description, j.requirements.take 5, j.salary_range⟩

/-- The exclusion filter of `match_jobs`. -/
def filterExcludedJobs (jobs : List JobPosting)
    (exclude_employer_id : Option String) : List JobPosting :=
  if optStrTruthy exclude_employer_id then
    jobs.filter (fun j => j.employer_id != exclude_employer_id.getD (""))
  else jobs

/-- The scored entries of `match_jobs`, in collection order. -/
def jobEntries (sim : List ℚ → List ℚ → ℚ) (resume_embedding : List ℚ)
    (jobs : List JobPosting) : List JobMatchEntry :=
  (jobs.filter (fun j => embTruthy j.embedding)).map (mkJobMatchEntry sim resume_embedding)

/-- `match_jobs` (job_server.py), structurally parallel to
`match_candidates`. -/
def match_jobs (encode : String → List ℚ) (sim : List ℚ → List ℚ → ℚ)
    (resume_text : String) (jobs : List JobPosting) (top_k : Int)
    (exclude_employer_id : Option String) : MatchJobsReply :=
  if jobs.isEmpty then ⟨[], none, some ("No jobs available")⟩
  else
    let remaining := filterExcludedJobs jobs exclude_employer_id
    let sorted := sortDescBy (fun e => e.similarity_score)
      (jobEntries sim (encode resume_text) remaining)
    ⟨pySliceTake top_k sorted, some remaining.length, none⟩

/-- Classification of one resume's experience text into exactly one bucket:
the top-down first-match rules of `get_resume_insights`. -/
def classify_experience (experience : String) : String :=
  if anyKeyword (pyLower experience) ["senior", "lead", "manager", "director"] then "Senior"
  else if anyKeyword (pyLower experience) ["years", "experience"] &&
      !(anyKeyword (pyLower experience) ["entry", "junior", "intern"]) then "Mid"
  else "Entry"

/-- The `experience_levels` dict built by `get_resume_insights` for a
non-empty collection: the three fixed buckets, initialised to zero, each
record incrementing the first bucket whose rule matches. -/
def experienceLevels (resumes : List Resume) : List (String × Nat) :=
  [("Entry", resumes.countP (fun r => classify_experience r.experience == "Entry")),
   ("Mid", resumes.countP (fun r => classify_experience r.experience == "Mid")),
   ("Senior", resumes.countP (fun r => classify_experience r.experience == "Senior"))]

/-- One step of the dict-building loop
`counts[s] = counts.get(s, 0) + 1`, on an association list kept in first
insertion order. -/
def bumpCount : List (String × Nat) → String → List (String × Nat)
  | [], s => [(s, 1)]
  | (k, v) :: t, s => if k == s then (k, v + 1) :: t else (k, v) :: bumpCount t s

/-- Frequency counts of a list of strings, in first-occurrence order (the
iteration order of a Python dict built by insertion). -/
def countsInOrder (ss : List String) : List (String × Nat) := ss.foldl bumpCount []

/-- Python `s[:50] + "..." if len(s) > 50 else s` (education truncation). -/
def truncate50 (s : String) : String :=
  if s.length > 50 then s.take 50 ++ "..." else s

/-- Insight record (class `ResumeInsight`, resume_server.py); the
experience-level mapping is an association list so that presence or absence
of buckets is observable. -/
structure ResumeInsight where
  total_resumes : Nat
  top_skills : List String
  experience_levels : List (String × Nat)
  education_backgrounds : List String
deriving DecidableEq

/-- `get_resume_insights` (resume_server.py).  Python's `list(set(...))`
for education backgrounds has unspecified order; it is modelled as
first-occurrence deduplication (no claim depends on that field). -/
def get_resume_insights (resumes : List Resume) : ResumeInsight :=
  if resumes.isEmpty then ⟨0, [], [], []⟩
  else
    let all_skills := (resumes.map (fun r => r.skills)).flatten
    let top_skills :=
      ((sortDescBy (fun p => p.2) (countsInOrder all_skills)).take 10).map (fun p => p.1)
    let education :=
      ((((resumes.filter (fun r => !r.education.data.isEmpty)).map
        (fun r => truncate50 r.education)).eraseDups).take 10)
    ⟨resumes.length, top_skills, experienceLevels resumes, education⟩

/-- Keyword rule table of `parse_job_seeker_query` (aggregator_server.py). -/
def seeker_primary : List String := ["job", "position", "role", "opportunity"]

/-- Secondary keyword group selecting the recommendation sub-intent. -/
def sub_recommend : List String := ["best", "top", "recommend", "suitable"]

/-- Secondary keyword group selecting the count sub-intent. -/
def sub_howmany : List String := ["how many", "count"]

/-- Seeker skill-analysis keyword group. -/
def seeker_skill : List String := ["skill", "improve", "missing", "gap"]

/-- Seeker market-insights keyword group. -/
def seeker_market : List String := ["market", "trend", "popular", "demand"]

/-- Seeker resume-feedback keyword group. -/
def seeker_resume : List String := ["resume", "cv", "profile"]

/-- Employer primary keyword group of `parse_employer_query`. -/
def employer_primary : List String := ["candidate", "applicant", "resume"]

/-- Employer skill-analysis keyword group. -/
def employer_skill : List String := ["skill", "talent", "expertise"]

/-- Employer job-management keyword group. -/
def employer_job : List String := ["job", "position", "posting"]

/-- Intent classification result: the `intent` and `type` fields of the dict
returned by the parsers (`type` is a Lean keyword, hence `qtype`). -/
structure IntentResult where
  intent : String
  qtype : String
deriving DecidableEq

/-- `parse_job_seeker_query` (aggregator_server.py).  When the primary group
matches but neither secondary group does, the source's inner if/elif has no
else branch, so control falls past the outer elif chain to the final
general return; the inner else here models that fall-through. -/
def parse_job_seeker_query (query : String) : IntentResult :=
  let ql := pyLower query
  if anyKeyword ql seeker_primary then
    if anyKeyword ql sub_recommend then ⟨"find_jobs", "recommendation"⟩
    else if anyKeyword ql sub_howmany then ⟨"job_stats", "count"⟩
    else ⟨"general", "help"⟩
  else if anyKeyword ql seeker_skill then ⟨"skill_analysis", "improvement"⟩
  else if anyKeyword ql seeker_market then ⟨"market_insights", "trends"⟩
  else if anyKeyword ql seeker_resume then ⟨"resume_feedback", "analysis"⟩
  else ⟨"general", "help"⟩

/-- `parse_employer_query` (aggregator_server.py), with the same
fall-through behaviour as the seeker parser. -/
def parse_employer_query (query : String) : IntentResult :=
  let ql := pyLower query
  if anyKeyword ql employer_primary then
    if anyKeyword ql sub_recommend then ⟨"find_candidates", "recommendation"⟩
    else if anyKeyword ql sub_howmany then ⟨"candidate_stats", "count"⟩
    else ⟨"general", "help"⟩
  else if anyKeyword ql employer_skill then ⟨"skill_analysis", "market"⟩
  else if anyKeyword ql employer_job then ⟨"job_management", "analysis"⟩
  else ⟨"general", "help"⟩

/-- Chat reply of `handle_chat_query`: narrative, echoed data, suggestions. -/
structure ChatReply (δ : Type) where
  response : String
  data : Option δ
  suggestions : List String
deriving DecidableEq

/-- Narrative line for one job entry in the seeker find_jobs branch of
`handle_chat_query`; the Python `:.2f` float formatting is the external
parameter `fmt`. -/
def renderJobLine (fmt : ℚ → String) (i : Nat) (j : JobMatchEntry) : String :=
  toString i ++ ". **" ++ j.title ++ "** at " ++ j.company ++ "\n" ++
  "   📍 " ++ j.location ++ " | Match Score: " ++ fmt j.similarity_score ++ "\n" ++
  "   " ++ j.description_snippet ++ "\n\n"

/-- The numbered narrative over the first three job matches
(`enumerate(job_matches["matches"][:3], 1)`). -/
def renderJobMatches (fmt : ℚ → String) (ms : List JobMatchEntry) : String :=
  String.join (((ms.take 3).enum).map (fun p => renderJobLine fmt (p.1 + 1) p.2))

/-- The find_jobs composition branch of `handle_chat_query` as a pure
function of the fetched job-server reply: `some ms` when the fetched dict
has a "matches" key holding `ms`, `none` when it has no such key (the error
shape).  The source branches on key presence, not on emptiness of the
list. -/
def compose_find_jobs (fmt : ℚ → String)
    (job_matches : Option (List JobMatchEntry)) : ChatReply (List JobMatchEntry) :=
  match job_matches with
  | some ms =>
    ⟨"I found " ++ toString ms.length ++ " great job opportunities for you:\n\n" ++
       renderJobMatches fmt ms,
     some ms,
     ["Tell me more about the first job", "What skills should I improve?",
      "Show me remote opportunities"]⟩
  | none =>
    ⟨"I couldn't find any job matches right now. Try uploading your resume first!",
     none,
     ["Upload my resume", "View market trends", "Get career advice"]⟩

/-- Narrative line for one candidate entry in the employer find_candidates
branch of `handle_chat_query`. -/
def renderCandidateLine (fmt : ℚ → String) (i : Nat) (c : MatchEntry) : String :=
  toString i ++ ". **" ++ c.name ++ "**\n" ++
  "   🎯 Match Score: " ++ fmt c.similarity_score ++ "\n" ++
  "   💼 Skills: " ++ String.intercalate (", ") (c.skills.take 4) ++ "\n" ++
  "   📝 " ++ c.experience_snippet ++ "\n\n"

/-- The numbered narrative over the first three candidate matches. -/
def renderCandidateMatches (fmt : ℚ → String) (ms : List MatchEntry) : String :=
  String.join (((ms.take 3).enum).map (fun p => renderCandidateLine fmt (p.1 + 1) p.2))

/-- The find_candidates composition branch of `handle_chat_query`, parallel
to `compose_find_jobs`. -/
def compose_find_candidates (fmt : ℚ → String)
    (candidate_matches : Option (List MatchEntry)) : ChatReply (List MatchEntry) :=
  match candidate_matches with
  | some ms =>
    ⟨"I found " ++ toString ms.length ++ " qualified candidates:\n\n" ++
       renderCandidateMatches fmt ms,
     some ms,
     ["Show me more details about candidate 1", "Filter by specific skills",
      "View candidate portfolios"]⟩
  | none =>
    ⟨"No matching candidates found. Try posting a job description first!",
     none,
     ["Post a new job", "View talent market insights", "Adjust job requirements"]⟩

/-- A degenerate encoder for concrete test inputs (the encoder is an
external collaborator, so any function is admissible). -/
def encode0 : String → List ℚ := fun _ => [1]

/-- A degenerate similarity kernel for concrete test inputs. -/
def sim0 : List ℚ → List ℚ → ℚ := fun _ _ => 0

/-- A degenerate score formatter for concrete test inputs. -/
def fmt0 : ℚ → String := fun _ => "0.00"

/-- Concrete resume with an embedding (owner u1). -/
def sampleResumeA : Resume :=
  ⟨"r1", "u1", "Alice", "a@x.com", ["python"], "five years experience", "bs",
   "raw a", some [1]⟩

/-- Concrete resume with an embedding (owner u2). -/
def sampleResumeB : Resume :=
  ⟨"r2", "u2", "Bob", "b@x.com", ["java"], "junior dev", "", "raw b", some [1]⟩

/-- Concrete resume with an absent embedding. -/
def resumeNoEmb : Resume :=
  ⟨"r3", "u3", "Cara", "c@x.com", ["go"], "senior lead", "", "raw c", none⟩

/-- Concrete resume whose owner id is the empty string. -/
def resumeEmptyOwner : Resume :=
  ⟨"r4", "", "Dan", "d@x.com", [], "", "", "raw d", some [1]⟩

/-- Concrete job with an absent embedding. -/
def jobNoEmb : JobPosting :=
  ⟨"j1", "e1", "Dev", "Acme", "build things", ["x"], "NYC", none,
   "Full-time", none⟩

/-- Concrete job with an embedding (employer e2). -/
def sampleJobA : JobPosting :=
  ⟨"j2", "e2", "Eng", "Beta", "desc", [], "SF", none, "Full-time", some [1]⟩

/-- Concrete job with an embedding (employer e3). -/
def sampleJobB : JobPosting :=
  ⟨"j3", "e3", "Ops", "Gamma", "ops", [], "LA", none, "Full-time", some [1]⟩

/-- Concrete job whose employer id is the empty string. -/
def jobEmptyOwner : JobPosting :=
  ⟨"j4", "", "QA", "Delta", "qa", [], "SEA", none, "Full-time", some [1]⟩

/-!
General lemmas about the combinators of the embedding: membership,
sortedness and stability of the descending insertion sort, prefix facts
about the Python slice, and counting facts for the distribution buckets.
-/

/-- Membership is preserved by one stable insertion step. -/
theorem mem_insertDescBy [LinearOrder β] (key : α → β) (x y : α) (l : List α) :
    y ∈ insertDescBy key x l ↔ y = x ∨ y ∈ l := by
  induction l with
  | nil => simp [insertDescBy]
  | cons h t ih =>
    by_cases hc : key x < key h
    · rw [insertDescBy, if_pos hc]
      simp only [List.mem_cons, ih]
      try tauto
    · rw [insertDescBy, if_neg hc]
      simp only [List.mem_cons]
      try tauto

/-- Membership is preserved by the stable descending sort. -/
theorem mem_sortDescBy [LinearOrder β] (key : α → β) (y : α) (l : List α) :
    y ∈ sortDescBy key l ↔ y ∈ l := by
  induction l with
  | nil => simp [sortDescBy]
  | cons h t ih =>
    simp only [sortDescBy, mem_insertDescBy, List.mem_cons, ih]

/-- A stable insertion step preserves the non-increasing-key invariant. -/
theorem pairwise_insertDescBy [LinearOrder β] (key : α → β) (x : α) (l : List α)
    (hl : l.Pairwise (fun a b => key b ≤ key a)) :
    (insertDescBy key x l).Pairwise (fun a b => key b ≤ key a) := by
  induction l with
  | nil => simp [insertDescBy]
  | cons h t ih =>
    rcases List.pairwise_cons.mp hl with ⟨hh, ht⟩
    by_cases hc : key x < key h
    · rw [insertDescBy, if_pos hc]
      refine List.pairwise_cons.mpr ⟨?_, ih ht⟩
      intro y hy
      rcases (mem_insertDescBy key x y t).mp hy with rfl | hyt
      · exact le_of_lt hc
      · exact hh y hyt
    · rw [insertDescBy, if_neg hc]
      refine List.pairwise_cons.mpr ⟨?_, hl⟩
      intro y hy
      rcases List.mem_cons.mp hy with rfl | hyt
      · exact le_of_not_lt hc
      · exact le_trans (hh y hyt) (le_of_not_lt hc)

/-- The stable descending sort produces a non-increasing key sequence. -/
theorem pairwise_sortDescBy [LinearOrder β] (key : α → β) (l : List α) :
    (sortDescBy key l).Pairwise (fun a b => key b ≤ key a) := by
  induction l with
  | nil => simp [sortDescBy]
  | cons h t ih =>
    rw [sortDescBy]
    exact pairwise_insertDescBy key h _ ih

/-- Inserting an element whose key equals `s` puts it in front of every
element of key `s` already present (stability of the insertion step). -/
theorem filter_insertDescBy_mem [LinearOrder β] (key : α → β) (x : α) (s : β)
    (l : List α) (hx : key x = s) :
    (insertDescBy key x l).filter (fun a => decide (key a = s)) =
      x :: l.filter (fun a => decide (key a = s)) := by
  induction l with
  | nil => simp [insertDescBy, hx]
  | cons h t ih =>
    by_cases hc : key x < key h
    · have hh : ¬ key h = s := by
        intro he
        rw [hx] at hc
        rw [he] at hc
        exact lt_irrefl _ hc
      rw [insertDescBy, if_pos hc]
      simp [List.filter_cons, hh, ih]
    · rw [insertDescBy, if_neg hc]
      simp [List.filter_cons, hx]

/-- Inserting an element whose key differs from `s` does not disturb the
subsequence of elements of key `s`. -/
theorem filter_insertDescBy_ne [LinearOrder β] (key : α → β) (x : α) (s : β)
    (l : List α) (hx : ¬ key x = s) :
    (insertDescBy key x l).filter (fun a => decide (key a = s)) =
      l.filter (fun a => decide (key a = s)) := by
  induction l with
  | nil => simp [insertDescBy, hx]
  | cons h t ih =>
    by_cases hc : key x < key h
    · rw [insertDescBy, if_pos hc]
      simp only [List.filter_cons, ih]
    · rw [insertDescBy, if_neg hc]
      simp [List.filter_cons, hx]

/-- Stability of the descending sort: elements of any fixed key keep
exactly their input order. -/
theorem filter_sortDescBy [LinearOrder β] (key : α → β) (s : β) (l : List α) :
    (sortDescBy key l).filter (fun a => decide (key a = s)) =
      l.filter (fun a => decide (key a = s)) := by
  induction l with
  | nil => rfl
  | cons h t ih =>
    rw [sortDescBy]
    by_cases hh : key h = s
    · rw [filter_insertDescBy_mem key h s _ hh, ih, List.filter_cons]
      simp [hh]
    · rw [filter_insertDescBy_ne key h s _ hh, ih, List.filter_cons]
      simp [hh]

/-- `l` is an initial segment of `big`: the order-sensitive inclusion used
to state tie-break stability of truncated results. -/
def initialSegOf (l big : List α) : Prop := ∃ rest, big = l ++ rest

/-- A take is an initial segment. -/
theorem initialSegOf_take (n : Nat) (l : List α) : initialSegOf (l.take n) l :=
  ⟨l.drop n, (List.take_append_drop n l).symm⟩

/-- Filtering preserves initial segments. -/
theorem initialSegOf_filter (p : α → Bool) (l big : List α)
    (h : initialSegOf l big) : initialSegOf (l.filter p) (big.filter p) := by
  rcases h with ⟨rest, rfl⟩
  exact ⟨rest.filter p, by rw [List.filter_append]⟩

/-- The Python slice `l[:k]` is an initial segment of `l`. -/
theorem pySliceTake_initialSegOf (k : Int) (l : List α) :
    initialSegOf (pySliceTake k l) l := initialSegOf_take _ l

/-- The Python slice `l[:k]` is a sublist of `l`. -/
theorem pySliceTake_sublist (k : Int) (l : List α) : (pySliceTake k l).Sublist l :=
  List.take_sublist _ l

/-- Members of the Python slice `l[:k]` are members of `l`. -/
theorem mem_pySliceTake (k : Int) (l : List α) (x : α) (h : x ∈ pySliceTake k l) :
    x ∈ l := (pySliceTake_sublist k l).subset h

/-- The Python slice of the empty list is empty. -/
theorem pySliceTake_nil (k : Int) : pySliceTake k ([] : List α) = [] := by
  simp [pySliceTake]

/-- The Python slice `l[:0]` is empty. -/
theorem pySliceTake_zero (l : List α) : pySliceTake 0 l = [] := by
  simp [pySliceTake, pySliceLen]

/-- Boolean emptiness agrees with equality to the empty list. -/
theorem isEmpty_true_iff (l : List α) : l.isEmpty = true ↔ l = [] := by
  cases l <;> simp

/-- Counting three mutually exclusive, jointly exhaustive predicates
accounts for every element exactly once. -/
theorem countP_three_split (l : List α) (p q r : α → Bool)
    (h : ∀ x ∈ l, (p x).toNat + (q x).toNat + (r x).toNat = 1) :
    l.countP p + l.countP q + l.countP r = l.length := by
  induction l with
  | nil => simp
  | cons a t ih =>
    have ha := h a (List.mem_cons_self a t)
    have ht := ih (fun x hx => h x (List.mem_cons_of_mem a hx))
    simp only [List.countP_cons, List.length_cons]
    cases hp : p a <;> cases hq : q a <;> cases hr : r a <;>
      simp [hp, hq, hr] at ha ⊢ <;> omega

/-- On a non-empty store `match_candidates` takes its main branch. -/
theorem match_candidates_nonempty (encode : String → List ℚ)
    (sim : List ℚ → List ℚ → ℚ) (jd : String) (resumes : List Resume)
    (k : Int) (ex : Option String) (h : resumes ≠ []) :
    match_candidates encode sim jd resumes k ex =
      ⟨pySliceTake k (sortDescBy (fun e => e.similarity_score)
         (candidateEntries sim (encode jd) (filterExcludedResumes resumes ex))),
       some (filterExcludedResumes resumes ex).length, none⟩ := by
  cases resumes with
  | nil => exact absurd rfl h
  | cons a t => rfl

/-- On a non-empty store `match_jobs` takes its main branch. -/
theorem match_jobs_nonempty (encode : String → List ℚ)
    (sim : List ℚ → List ℚ → ℚ) (rt : String) (jobs : List JobPosting)
    (k : Int) (ex : Option String) (h : jobs ≠ []) :
    match_jobs encode sim rt jobs k ex =
      ⟨pySliceTake k (sortDescBy (fun e => e.similarity_score)
         (jobEntries sim (encode rt) (filterExcludedJobs jobs ex))),
       some (filterExcludedJobs jobs ex).length, none⟩ := by
  cases jobs with
  | nil => exact absurd rfl h
  | cons a t => rfl

/-- Provenance of match-candidates results: every returned entry is built
from a post-exclusion record with a truthy embedding. -/
theorem match_candidates_provenance (encode : String → List ℚ)
    (sim : List ℚ → List ℚ → ℚ) (jd : String) (resumes : List Resume)
    (k : Int) (ex : Option String) :
    ∀ e ∈ (match_candidates encode sim jd resumes k ex).«matches»,
      ∃ r, r ∈ filterExcludedResumes resumes ex ∧ embTruthy r.embedding = true ∧
        e = mkMatchEntry sim (encode jd) r := by
  intro e he
  rcases eq_or_ne resumes [] with rfl | hne
  · simp [match_candidates] at he
  · rw [match_candidates_nonempty encode sim jd resumes k ex hne] at he
    have h1 := mem_pySliceTake _ _ _ he
    have h2 := (mem_sortDescBy _ _ _).mp h1
    simp only [candidateEntries] at h2
    rcases List.mem_map.mp h2 with ⟨r, hr, hre⟩
    have h3 := List.mem_filter.mp hr
    exact ⟨r, h3.1, h3.2, hre.symm⟩

/-- Provenance of match-jobs results. -/
theorem match_jobs_provenance (encode : String → List ℚ)
    (sim : List ℚ → List ℚ → ℚ) (rt : String) (jobs : List JobPosting)
    (k : Int) (ex : Option String) :
    ∀ e ∈ (match_jobs encode sim rt jobs k ex).«matches»,
      ∃ j, j ∈ filterExcludedJobs jobs ex ∧ embTruthy j.embedding = true ∧
        e = mkJobMatchEntry sim (encode rt) j := by
  intro e he
  rcases eq_or_ne jobs [] with rfl | hne
  · simp [match_jobs] at he
  · rw [match_jobs_nonempty encode sim rt jobs k ex hne] at he
    have h1 := mem_pySliceTake _ _ _ he
    have h2 := (mem_sortDescBy _ _ _).mp h1
    simp only [jobEntries] at h2
    rcases List.mem_map.mp h2 with ⟨j, hj, hje⟩
    have h3 := List.mem_filter.mp hj
    exact ⟨j, h3.1, h3.2, hje.symm⟩

/-- A non-empty exclusion string is truthy. -/
theorem optStrTruthy_some_ne (X : String) (h : X ≠ ("")) :
    optStrTruthy (some X) = true := by
  cases X with
  | mk l =>
    cases l with
    | nil => exact absurd rfl h
    | cons c cs => rfl

/-- With a non-empty exclusion id the resume filter really filters. -/
theorem filterExcludedResumes_some (resumes : List Resume) (X : String)
    (hX : X ≠ ("")) :
    filterExcludedResumes resumes (some X) =
      resumes.filter (fun r => r.user_id != X) := by
  simp [filterExcludedResumes, optStrTruthy_some_ne X hX]

/-- With a non-empty exclusion id the job filter really filters. -/
theorem filterExcludedJobs_some (jobs : List JobPosting) (Y : String)
    (hY : Y ≠ ("")) :
    filterExcludedJobs jobs (some Y) =
      jobs.filter (fun j => j.employer_id != Y) := by
  simp [filterExcludedJobs, optStrTruthy_some_ne Y hY]

/-- The empty exclusion string is falsy: the resume filter does nothing. -/
theorem filterExcludedResumes_emptyStr (resumes : List Resume) :
    filterExcludedResumes resumes (some ("")) =
      filterExcludedResumes resumes none := rfl

/-- The empty exclusion string is falsy: the job filter does nothing. -/
theorem filterExcludedJobs_emptyStr (jobs : List JobPosting) :
    filterExcludedJobs jobs (some ("")) = filterExcludedJobs jobs none := rfl

/-- The exclusion filter only removes records: members remain members. -/
theorem mem_filterExcludedResumes (resumes : List Resume) (ex : Option String)
    (r : Resume) (h : r ∈ filterExcludedResumes resumes ex) : r ∈ resumes := by
  unfold filterExcludedResumes at h
  split at h
  · exact List.mem_of_mem_filter h
  · exact h

/-- The job exclusion filter only removes records. -/
theorem mem_filterExcludedJobs (jobs : List JobPosting) (ex : Option String)
    (j : JobPosting) (h : j ∈ filterExcludedJobs jobs ex) : j ∈ jobs := by
  unfold filterExcludedJobs at h
  split at h
  · exact List.mem_of_mem_filter h
  · exact h

/-- The first-match rules put every record in exactly one of the three
buckets. -/
theorem classify_experience_cases (s : String) :
    classify_experience s = "Entry" ∨ classify_experience s = "Mid" ∨
      classify_experience s = "Senior" := by
  unfold classify_experience
  split
  · exact Or.inr (Or.inr rfl)
  · split
    · exact Or.inr (Or.inl rfl)
    · exact Or.inl rfl

/-- The three bucket counts add up to the number of records. -/
theorem experienceLevels_sum (resumes : List Resume) :
    ((experienceLevels resumes).map (fun p => p.2)).sum = resumes.length := by
  have key : ∀ r ∈ resumes,
      ((classify_experience r.experience == "Entry") : Bool).toNat +
      ((classify_experience r.experience == "Mid") : Bool).toNat +
      ((classify_experience r.experience == "Senior") : Bool).toNat = 1 := by
    intro r _
    rcases classify_experience_cases r.experience with h1 | h1 | h1 <;>
      rw [h1] <;> decide
  have h := countP_three_split resumes
    (fun r => classify_experience r.experience == "Entry")
    (fun r => classify_experience r.experience == "Mid")
    (fun r => classify_experience r.experience == "Senior") key
  simp only [experienceLevels, List.map_cons, List.map_nil, List.sum_cons,
    List.sum_nil]
  omega

/-- The reported total of the insight aggregation is the full record count,
independent of embeddings. -/
theorem get_resume_insights_total (resumes : List Resume) :
    (get_resume_insights resumes).total_resumes = resumes.length := by
  unfold get_resume_insights
  split
  · rename_i h
    have h2 : resumes = [] := (isEmpty_true_iff resumes).mp h
    subst h2
    rfl
  · rfl

/-- The distribution of a non-empty collection is the three-bucket list. -/
theorem get_resume_insights_levels (resumes : List Resume) (h : resumes ≠ []) :
    (get_resume_insights resumes).experience_levels = experienceLevels resumes := by
  cases resumes with
  | nil => exact absurd rfl h
  | cons a t => rfl

/-- Bucket counts of the insight aggregation sum to the record count, also
for the empty collection. -/
theorem get_resume_insights_levels_sum (resumes : List Resume) :
    (((get_resume_insights resumes).experience_levels).map (fun p => p.2)).sum =
      resumes.length := by
  rcases eq_or_ne resumes [] with rfl | hne
  · rfl
  · rw [get_resume_insights_levels resumes hne]
    exact experienceLevels_sum resumes

/-!
Claim theorems.  Each claim of the specification is settled below; the
corrected claims come with a concrete counterexample theorem and a proved
amended statement.
-/

/-- C1 counterexample: the claim asserts that every `top_k ≤ 0` yields an
empty result list; with two scored resumes and `top_k = -1` the Python
slice `matches[:-1]` keeps one entry, so the returned list is not empty. -/
theorem claim_C1_counterexample :
    (match_candidates encode0 sim0 ("jd") [sampleResumeA, sampleResumeB] (-1)
      none).«matches».length = 1 := by decide

/-- C1 amended: for every collection, `top_k = 0` yields an empty result
list from both match operations, and the call does not raise (the model is
total); a negative `top_k` instead drops the last `|top_k|` sorted entries
via the Python slice and can leave a non-empty list. -/
theorem claim_C1_amended (encode : String → List ℚ) (sim : List ℚ → List ℚ → ℚ)
    (jd rt : String) (resumes : List Resume) (jobs : List JobPosting)
    (ex exj : Option String) :
    (match_candidates encode sim jd resumes 0 ex).«matches» = [] ∧
    (match_jobs encode sim rt jobs 0 exj).«matches» = [] := by
  constructor
  · rcases eq_or_ne resumes [] with rfl | hne
    · rfl
    · rw [match_candidates_nonempty encode sim jd resumes 0 ex hne]
      exact pySliceTake_zero (sortDescBy (fun e => e.similarity_score)
        (candidateEntries sim (encode jd) (filterExcludedResumes resumes ex)))
  · rcases eq_or_ne jobs [] with rfl | hne
    · rfl
    · rw [match_jobs_nonempty encode sim rt jobs 0 exj hne]
      exact pySliceTake_zero (sortDescBy (fun e => e.similarity_score)
        (jobEntries sim (encode rt) (filterExcludedJobs jobs exj)))

/-- C2 counterexample: on the empty collection the code returns the message
branch carrying no total field at all, so `FindCandidates` on an empty
store does not return `total_candidates = 0`. -/
theorem claim_C2_counterexample :
    match_candidates encode0 sim0 ("backend engineer") [] 5 none =
      ⟨[], none, some ("No resumes available")⟩ ∧
    (match_candidates encode0 sim0 ("backend engineer") [] 5
      none).total_candidates ≠ some 0 :=
  ⟨rfl, by decide⟩

/-- C2 amended: on a non-empty collection in which no record has a truthy
embedding, both match operations return an empty match list and a total
equal to the post-exclusion record count; on an empty collection they
return an empty list together with a message and no total field. -/
theorem claim_C2_amended (encode : String → List ℚ) (sim : List ℚ → List ℚ → ℚ)
    (jd rt : String) (resumes : List Resume) (jobs : List JobPosting)
    (k kj : Int) (ex exj : Option String)
    (h1 : resumes ≠ []) (h2 : ∀ r ∈ resumes, embTruthy r.embedding = false)
    (h3 : jobs ≠ []) (h4 : ∀ j ∈ jobs, embTruthy j.embedding = false) :
    match_candidates encode sim jd resumes k ex =
      ⟨[], some (filterExcludedResumes resumes ex).length, none⟩ ∧
    match_jobs encode sim rt jobs kj exj =
      ⟨[], some (filterExcludedJobs jobs exj).length, none⟩ ∧
    (∀ (k2 : Int) (ex2 : Option String),
      match_candidates encode sim jd [] k2 ex2 =
        ⟨[], none, some ("No resumes available")⟩) ∧
    (∀ (k2 : Int) (ex2 : Option String),
      match_jobs encode sim rt [] k2 ex2 =
        ⟨[], none, some ("No jobs available")⟩) := by
  refine ⟨?_, ?_, fun k2 ex2 => rfl, fun k2 ex2 => rfl⟩
  · rw [match_candidates_nonempty encode sim jd resumes k ex h1]
    have hent : candidateEntries sim (encode jd)
        (filterExcludedResumes resumes ex) = [] := by
      unfold candidateEntries
      have hfil : (filterExcludedResumes resumes ex).filter
          (fun r => embTruthy r.embedding) = [] := by
        rw [List.filter_eq_nil_iff]
        intro r hrm
        rw [h2 r (mem_filterExcludedResumes resumes ex r hrm)]
        simp
      rw [hfil]
      rfl
    rw [hent]
    simp [sortDescBy, pySliceTake_nil]
  · rw [match_jobs_nonempty encode sim rt jobs kj exj h3]
    have hent : jobEntries sim (encode rt) (filterExcludedJobs jobs exj) = [] := by
      unfold jobEntries
      have hfil : (filterExcludedJobs jobs exj).filter
          (fun j => embTruthy j.embedding) = [] := by
        rw [List.filter_eq_nil_iff]
        intro j hjm
        rw [h4 j (mem_filterExcludedJobs jobs exj j hjm)]
        simp
      rw [hfil]
      rfl
    rw [hent]
    simp [sortDescBy, pySliceTake_nil]

/-- C2 witness: the amended statement at a concrete one-record store without
embeddings on each side. -/
theorem claim_C2_witness :
    (([resumeNoEmb] : List Resume) ≠ [] ∧
     (∀ r ∈ ([resumeNoEmb] : List Resume), embTruthy r.embedding = false) ∧
     ([jobNoEmb] : List JobPosting) ≠ [] ∧
     (∀ j ∈ ([jobNoEmb] : List JobPosting), embTruthy j.embedding = false)) ∧
    (match_candidates encode0 sim0 ("jd") [resumeNoEmb] 5 none =
       ⟨[], some (filterExcludedResumes [resumeNoEmb] none).length, none⟩ ∧
     match_jobs encode0 sim0 ("rt") [jobNoEmb] 7 none =
       ⟨[], some (filterExcludedJobs [jobNoEmb] none).length, none⟩ ∧
     (∀ (k2 : Int) (ex2 : Option String),
       match_candidates encode0 sim0 ("jd") [] k2 ex2 =
         ⟨[], none, some ("No resumes available")⟩) ∧
     (∀ (k2 : Int) (ex2 : Option String),
       match_jobs encode0 sim0 ("rt") [] k2 ex2 =
         ⟨[], none, some ("No jobs available")⟩)) := by
  have h1 : ([resumeNoEmb] : List Resume) ≠ [] := by decide
  have h2 : ∀ r ∈ ([resumeNoEmb] : List Resume), embTruthy r.embedding = false := by
    decide
  have h3 : ([jobNoEmb] : List JobPosting) ≠ [] := by decide
  have h4 : ∀ j ∈ ([jobNoEmb] : List JobPosting), embTruthy j.embedding = false := by
    decide
  exact ⟨⟨h1, h2, h3, h4⟩,
    claim_C2_amended encode0 sim0 ("jd") ("rt") [resumeNoEmb] [jobNoEmb] 5 7
      none none h1 h2 h3 h4⟩

/-- C3 counterexample: with the non-absent exclusion id `""` the truthiness
guard skips the filter entirely, so a record owned by `""` is returned and
counted in the total, contradicting the claim for `X = ""`. -/
theorem claim_C3_counterexample :
    resumeEmptyOwner.user_id = "" ∧
    (match_candidates encode0 sim0 ("jd") [resumeEmptyOwner] 5
      (some (""))).«matches» =
      [mkMatchEntry sim0 (encode0 ("jd")) resumeEmptyOwner] ∧
    (match_candidates encode0 sim0 ("jd") [resumeEmptyOwner] 5
      (some (""))).total_candidates = some 1 ∧
    jobEmptyOwner.employer_id = "" ∧
    (match_jobs encode0 sim0 ("rt") [jobEmptyOwner] 5 (some (""))).«matches» =
      [mkJobMatchEntry sim0 (encode0 ("rt")) jobEmptyOwner] ∧
    (match_jobs encode0 sim0 ("rt") [jobEmptyOwner] 5 (some (""))).total_jobs =
      some 1 :=
  ⟨rfl, by decide, by decide, rfl, by decide, by decide⟩

/-- C3 amended: for every non-absent and non-EMPTY exclusion id the claim
holds: every returned entry stems from a record of a different owner, and
on a non-empty collection the total counts exactly the records of other
owners, because the exclusion filter runs before the total is computed. -/
theorem claim_C3_amended (encode : String → List ℚ) (sim : List ℚ → List ℚ → ℚ)
    (jd rt : String) (resumes : List Resume) (jobs : List JobPosting)
    (k kj : Int) (X Y : String) (hX : X ≠ ("")) (hY : Y ≠ ("")) :
    (∀ e ∈ (match_candidates encode sim jd resumes k (some X)).«matches»,
      ∃ r, r ∈ resumes ∧ r.user_id ≠ X ∧ e = mkMatchEntry sim (encode jd) r) ∧
    (resumes ≠ [] →
      (match_candidates encode sim jd resumes k (some X)).total_candidates =
        some (resumes.filter (fun r => r.user_id != X)).length) ∧
    (∀ e ∈ (match_jobs encode sim rt jobs kj (some Y)).«matches»,
      ∃ j, j ∈ jobs ∧ j.employer_id ≠ Y ∧ e = mkJobMatchEntry sim (encode rt) j) ∧
    (jobs ≠ [] →
      (match_jobs encode sim rt jobs kj (some Y)).total_jobs =
        some (jobs.filter (fun j => j.employer_id != Y)).length) := by
  refine ⟨?_, ?_, ?_, ?_⟩
  · intro e he
    rcases match_candidates_provenance encode sim jd resumes k (some X) e he with
      ⟨r, hrm, hemb, hre⟩
    rw [filterExcludedResumes_some resumes X hX] at hrm
    have h3 := List.mem_filter.mp hrm
    exact ⟨r, h3.1, bne_iff_ne.mp h3.2, hre⟩
  · intro hne
    rw [match_candidates_nonempty encode sim jd resumes k (some X) hne,
      filterExcludedResumes_some resumes X hX]
  · intro e he
    rcases match_jobs_provenance encode sim rt jobs kj (some Y) e he with
      ⟨j, hjm, hemb, hje⟩
    rw [filterExcludedJobs_some jobs Y hY] at hjm
    have h3 := List.mem_filter.mp hjm
    exact ⟨j, h3.1, bne_iff_ne.mp h3.2, hje⟩
  · intro hne
    rw [match_jobs_nonempty encode sim rt jobs kj (some Y) hne,
      filterExcludedJobs_some jobs Y hY]

/-- C3 witness: the amended statement at concrete two-record stores with a
non-empty exclusion id on each side. -/
theorem claim_C3_witness :
    (("u1" : String) ≠ ("") ∧ ("e2" : String) ≠ ("")) ∧
    ((∀ e ∈ (match_candidates encode0 sim0 ("jd") [sampleResumeA, sampleResumeB]
        5 (some ("u1"))).«matches»,
      ∃ r, r ∈ [sampleResumeA, sampleResumeB] ∧ r.user_id ≠ "u1" ∧
        e = mkMatchEntry sim0 (encode0 ("jd")) r) ∧
     (([sampleResumeA, sampleResumeB] : List Resume) ≠ [] →
      (match_candidates encode0 sim0 ("jd") [sampleResumeA, sampleResumeB] 5
        (some ("u1"))).total_candidates =
        some (([sampleResumeA, sampleResumeB] : List Resume).filter
          (fun r => r.user_id != "u1")).length) ∧
     (∀ e ∈ (match_jobs encode0 sim0 ("rt") [sampleJobA, sampleJobB] 5
        (some ("e2"))).«matches»,
      ∃ j, j ∈ [sampleJobA, sampleJobB] ∧ j.employer_id ≠ "e2" ∧
        e = mkJobMatchEntry sim0 (encode0 ("rt")) j) ∧
     (([sampleJobA, sampleJobB] : List JobPosting) ≠ [] →
      (match_jobs encode0 sim0 ("rt") [sampleJobA, sampleJobB] 5
        (some ("e2"))).total_jobs =
        some (([sampleJobA, sampleJobB] : List JobPosting).filter
          (fun j => j.employer_id != "e2")).length)) := by
  have hX : ("u1" : String) ≠ ("") := by decide
  have hY : ("e2" : String) ≠ ("") := by decide
  exact ⟨⟨hX, hY⟩,
    claim_C3_amended encode0 sim0 ("jd") ("rt") [sampleResumeA, sampleResumeB]
      [sampleJobA, sampleJobB] 5 5 ("u1") ("e2") hX hY⟩

/-- Stability of the score sort, specialised to match-candidates entries. -/
theorem filter_sortDescBy_score (s : ℚ) (l : List MatchEntry) :
    (sortDescBy (fun e => e.similarity_score) l).filter
      (fun e => decide (e.similarity_score = s)) =
      l.filter (fun e => decide (e.similarity_score = s)) :=
  filter_sortDescBy (fun e => e.similarity_score) s l

/-- Stability of the score sort, specialised to match-jobs entries. -/
theorem filter_sortDescBy_jscore (s : ℚ) (l : List JobMatchEntry) :
    (sortDescBy (fun e => e.similarity_score) l).filter
      (fun e => decide (e.similarity_score = s)) =
      l.filter (fun e => decide (e.similarity_score = s)) :=
  filter_sortDescBy (fun e => e.similarity_score) s l

/-- C4: every match result list is ordered non-increasingly by similarity
score, and for each fixed score the result entries form an initial segment
of the collection-ordered scored entries, so exact ties keep insertion
order (records inserted earlier appear first); the operations are pure
functions of their inputs, so repeated calls cannot reorder ties. -/
theorem claim_C4 (encode : String → List ℚ) (sim : List ℚ → List ℚ → ℚ)
    (jd rt : String) (resumes : List Resume) (jobs : List JobPosting)
    (k kj : Int) (ex exj : Option String) :
    ((match_candidates encode sim jd resumes k ex).«matches»).Pairwise
      (fun a b => b.similarity_score ≤ a.similarity_score) ∧
    (∀ s : ℚ, initialSegOf
      (((match_candidates encode sim jd resumes k ex).«matches»).filter
        (fun e => decide (e.similarity_score = s)))
      ((candidateEntries sim (encode jd) (filterExcludedResumes resumes ex)).filter
        (fun e => decide (e.similarity_score = s)))) ∧
    ((match_jobs encode sim rt jobs kj exj).«matches»).Pairwise
      (fun a b => b.similarity_score ≤ a.similarity_score) ∧
    (∀ s : ℚ, initialSegOf
      (((match_jobs encode sim rt jobs kj exj).«matches»).filter
        (fun e => decide (e.similarity_score = s)))
      ((jobEntries sim (encode rt) (filterExcludedJobs jobs exj)).filter
        (fun e => decide (e.similarity_score = s)))) := by
  refine ⟨?_, ?_, ?_, ?_⟩
  · rcases eq_or_ne resumes [] with rfl | hne
    · exact List.Pairwise.nil
    · rw [match_candidates_nonempty encode sim jd resumes k ex hne]
      exact (pairwise_sortDescBy (fun e : MatchEntry => e.similarity_score) _).sublist
        (pySliceTake_sublist _ _)
  · intro s
    rcases eq_or_ne resumes [] with rfl | hne
    · exact ⟨_, rfl⟩
    · rw [match_candidates_nonempty encode sim jd resumes k ex hne]
      have h1 := initialSegOf_filter (fun e => decide (e.similarity_score = s)) _ _
        (pySliceTake_initialSegOf k (sortDescBy (fun e => e.similarity_score)
          (candidateEntries sim (encode jd) (filterExcludedResumes resumes ex))))
      rwa [filter_sortDescBy_score] at h1
  · rcases eq_or_ne jobs [] with rfl | hne
    · exact List.Pairwise.nil
    · rw [match_jobs_nonempty encode sim rt jobs kj exj hne]
      exact (pairwise_sortDescBy (fun e : JobMatchEntry => e.similarity_score) _).sublist
        (pySliceTake_sublist _ _)
  · intro s
    rcases eq_or_ne jobs [] with rfl | hne
    · exact ⟨_, rfl⟩
    · rw [match_jobs_nonempty encode sim rt jobs kj exj hne]
      have h1 := initialSegOf_filter (fun e => decide (e.similarity_score = s)) _ _
        (pySliceTake_initialSegOf kj (sortDescBy (fun e => e.similarity_score)
          (jobEntries sim (encode rt) (filterExcludedJobs jobs exj))))
      rwa [filter_sortDescBy_jscore] at h1

/-- C5: a record with an absent embedding never contributes an entry to any
match result list (every entry stems from a post-exclusion record with a
truthy embedding, and an absent embedding is falsy), yet such a record is
still counted: the match totals are the post-exclusion record counts, and
the insight aggregation counts every record both in `total_resumes` and in
the experience-level distribution (whose bucket counts sum to the full
record count). -/
theorem claim_C5 (encode : String → List ℚ) (sim : List ℚ → List ℚ → ℚ)
    (jd rt : String) (resumes : List Resume) (jobs : List JobPosting)
    (k kj : Int) (ex exj : Option String) (r : Resume) (j : JobPosting)
    (hr : r ∈ resumes) (hremb : r.embedding = none)
    (hj : j ∈ jobs) (hjemb : j.embedding = none) :
    (∀ e ∈ (match_candidates encode sim jd resumes k ex).«matches»,
      ∃ r2, r2 ∈ filterExcludedResumes resumes ex ∧
        embTruthy r2.embedding = true ∧ e = mkMatchEntry sim (encode jd) r2) ∧
    embTruthy r.embedding = false ∧
    (match_candidates encode sim jd resumes k ex).total_candidates =
      some (filterExcludedResumes resumes ex).length ∧
    (∀ e ∈ (match_jobs encode sim rt jobs kj exj).«matches»,
      ∃ j2, j2 ∈ filterExcludedJobs jobs exj ∧
        embTruthy j2.embedding = true ∧ e = mkJobMatchEntry sim (encode rt) j2) ∧
    embTruthy j.embedding = false ∧
    (match_jobs encode sim rt jobs kj exj).total_jobs =
      some (filterExcludedJobs jobs exj).length ∧
    (get_resume_insights resumes).total_resumes = resumes.length ∧
    (((get_resume_insights resumes).experience_levels).map (fun p => p.2)).sum =
      resumes.length := by
  have hne : resumes ≠ [] := by
    intro h
    subst h
    exact absurd hr (List.not_mem_nil r)
  have hjne : jobs ≠ [] := by
    intro h
    subst h
    exact absurd hj (List.not_mem_nil j)
  refine ⟨match_candidates_provenance encode sim jd resumes k ex, ?_, ?_,
    match_jobs_provenance encode sim rt jobs kj exj, ?_, ?_,
    get_resume_insights_total resumes, get_resume_insights_levels_sum resumes⟩
  · rw [hremb]
    rfl
  · rw [match_candidates_nonempty encode sim jd resumes k ex hne]
  · rw [hjemb]
    rfl
  · rw [match_jobs_nonempty encode sim rt jobs kj exj hjne]

/-- C5 witness: the statement at concrete stores holding one embedded and
one embedding-less record each. -/
theorem claim_C5_witness :
    (resumeNoEmb ∈ ([sampleResumeA, resumeNoEmb] : List Resume) ∧
     resumeNoEmb.embedding = none ∧
     jobNoEmb ∈ ([sampleJobA, jobNoEmb] : List JobPosting) ∧
     jobNoEmb.embedding = none) ∧
    ((∀ e ∈ (match_candidates encode0 sim0 ("jd") [sampleResumeA, resumeNoEmb] 5
        none).«matches»,
      ∃ r2, r2 ∈ filterExcludedResumes [sampleResumeA, resumeNoEmb] none ∧
        embTruthy r2.embedding = true ∧
        e = mkMatchEntry sim0 (encode0 ("jd")) r2) ∧
     embTruthy resumeNoEmb.embedding = false ∧
     (match_candidates encode0 sim0 ("jd") [sampleResumeA, resumeNoEmb] 5
       none).total_candidates =
       some (filterExcludedResumes [sampleResumeA, resumeNoEmb] none).length ∧
     (∀ e ∈ (match_jobs encode0 sim0 ("rt") [sampleJobA, jobNoEmb] 5
        none).«matches»,
      ∃ j2, j2 ∈ filterExcludedJobs [sampleJobA, jobNoEmb] none ∧
        embTruthy j2.embedding = true ∧
        e = mkJobMatchEntry sim0 (encode0 ("rt")) j2) ∧
     embTruthy jobNoEmb.embedding = false ∧
     (match_jobs encode0 sim0 ("rt") [sampleJobA, jobNoEmb] 5 none).total_jobs =
       some (filterExcludedJobs [sampleJobA, jobNoEmb] none).length ∧
     (get_resume_insights [sampleResumeA, resumeNoEmb]).total_resumes =
       ([sampleResumeA, resumeNoEmb] : List Resume).length ∧
     (((get_resume_insights [sampleResumeA, resumeNoEmb]).experience_levels).map
        (fun p => p.2)).sum = ([sampleResumeA, resumeNoEmb] : List Resume).length) := by
  have hr : resumeNoEmb ∈ ([sampleResumeA, resumeNoEmb] : List Resume) := by decide
  have hremb : resumeNoEmb.embedding = none := rfl
  have hj : jobNoEmb ∈ ([sampleJobA, jobNoEmb] : List JobPosting) := by decide
  have hjemb : jobNoEmb.embedding = none := rfl
  exact ⟨⟨hr, hremb, hj, hjemb⟩,
    claim_C5 encode0 sim0 ("jd") ("rt") [sampleResumeA, resumeNoEmb]
      [sampleJobA, jobNoEmb] 5 5 none none resumeNoEmb jobNoEmb hr hremb hj hjemb⟩

/-- C6 counterexample: the seeker query contains the primary keyword "job"
but none of the secondary keywords, and the router returns the general
intent with the help sub-intent, not the top-level intent with a default
sub-intent. -/
theorem claim_C6_counterexample :
    anyKeyword (pyLower ("what job openings are available")) seeker_primary = true ∧
    anyKeyword (pyLower ("what job openings are available")) sub_recommend = false ∧
    anyKeyword (pyLower ("what job openings are available")) sub_howmany = false ∧
    parse_job_seeker_query ("what job openings are available") =
      ⟨"general", "help"⟩ :=
  ⟨by decide, by decide, by decide, by decide⟩

/-- C6 amended: when the query matches the role's primary keyword group but
neither secondary keyword group, both routers fall through to the general
intent with the help sub-intent; there is no default sub-intent for the
matched top-level rule. -/
theorem claim_C6_amended (q1 q2 : String)
    (h1 : anyKeyword (pyLower q1) seeker_primary = true)
    (h2 : anyKeyword (pyLower q1) sub_recommend = false)
    (h3 : anyKeyword (pyLower q1) sub_howmany = false)
    (h4 : anyKeyword (pyLower q2) employer_primary = true)
    (h5 : anyKeyword (pyLower q2) sub_recommend = false)
    (h6 : anyKeyword (pyLower q2) sub_howmany = false) :
    parse_job_seeker_query q1 = ⟨"general", "help"⟩ ∧
    parse_employer_query q2 = ⟨"general", "help"⟩ := by
  constructor
  · simp [parse_job_seeker_query, h1, h2, h3]
  · simp [parse_employer_query, h4, h5, h6]

/-- C6 witness: the amended statement at concrete seeker and employer
queries that hit a primary keyword group and no secondary one. -/
theorem claim_C6_witness :
    (anyKeyword (pyLower ("what job openings are available")) seeker_primary = true ∧
     anyKeyword (pyLower ("what job openings are available")) sub_recommend = false ∧
     anyKeyword (pyLower ("what job openings are available")) sub_howmany = false ∧
     anyKeyword (pyLower ("candidate pipeline overview")) employer_primary = true ∧
     anyKeyword (pyLower ("candidate pipeline overview")) sub_recommend = false ∧
     anyKeyword (pyLower ("candidate pipeline overview")) sub_howmany = false) ∧
    (parse_job_seeker_query ("what job openings are available") =
       ⟨"general", "help"⟩ ∧
     parse_employer_query ("candidate pipeline overview") = ⟨"general", "help"⟩) :=
  ⟨⟨by decide, by decide, by decide, by decide, by decide, by decide⟩,
    claim_C6_amended ("what job openings are available")
      ("candidate pipeline overview")
      (by decide) (by decide) (by decide) (by decide) (by decide) (by decide)⟩

/-- C7: routing "how many candidates do we have" with the employer role
yields the count-statistics intent with the count sub-intent, and not the
find-candidates intent. -/
theorem claim_C7 :
    parse_employer_query ("how many candidates do we have") =
      ⟨"candidate_stats", "count"⟩ ∧
    (parse_employer_query ("how many candidates do we have")).intent ≠
      "find_candidates" :=
  ⟨by decide, by decide⟩

/-- C8 counterexample: fetched match data carrying a "matches" key with zero
results is composed through the success template ("I found 0 ...") with the
success suggestion set, not through the distinct "no matches — try X first"
narrative, which is produced only when the key is absent. -/
theorem claim_C8_counterexample :
    (compose_find_jobs fmt0 (some [])).response =
      "I found 0 great job opportunities for you:\n\n" ∧
    (compose_find_jobs fmt0 (some [])).response ≠
      (compose_find_jobs fmt0 none).response ∧
    (compose_find_jobs fmt0 (some [])).suggestions =
      ["Tell me more about the first job", "What skills should I improve?",
       "Show me remote opportunities"] ∧
    (compose_find_candidates fmt0 (some [])).response =
      "I found 0 qualified candidates:\n\n" ∧
    (compose_find_candidates fmt0 (some [])).response ≠
      (compose_find_candidates fmt0 none).response ∧
    (compose_find_candidates fmt0 (some [])).suggestions =
      ["Show me more details about candidate 1", "Filter by specific skills",
       "View candidate portfolios"] :=
  ⟨by decide, by decide, by decide, by decide, by decide, by decide⟩

/-- C8 amended: the distinct "no matches" narrative and suggestion set are
produced exactly when the fetched data has no "matches" key (the error
shape); whenever the key is present — including with an empty result list —
the success template reporting the result count is used together with the
success suggestion set, which differs from the no-matches one. -/
theorem claim_C8_amended (fmt : ℚ → String) (ms : List JobMatchEntry)
    (cs : List MatchEntry) :
    compose_find_jobs fmt none =
      ⟨"I couldn't find any job matches right now. Try uploading your resume first!",
       none, ["Upload my resume", "View market trends", "Get career advice"]⟩ ∧
    (compose_find_jobs fmt (some ms)).response =
      "I found " ++ toString ms.length ++ " great job opportunities for you:\n\n" ++
        renderJobMatches fmt ms ∧
    (compose_find_jobs fmt (some ms)).suggestions ≠
      (compose_find_jobs fmt none).suggestions ∧
    compose_find_candidates fmt none =
      ⟨"No matching candidates found. Try posting a job description first!",
       none, ["Post a new job", "View talent market insights",
              "Adjust job requirements"]⟩ ∧
    (compose_find_candidates fmt (some cs)).response =
      "I found " ++ toString cs.length ++ " qualified candidates:\n\n" ++
        renderCandidateMatches fmt cs ∧
    (compose_find_candidates fmt (some cs)).suggestions ≠
      (compose_find_candidates fmt none).suggestions :=
  ⟨rfl, rfl,
   (by decide : (["Tell me more about the first job",
      "What skills should I improve?", "Show me remote opportunities"] :
        List String) ≠
      ["Upload my resume", "View market trends", "Get career advice"]),
   rfl, rfl,
   (by decide : (["Show me more details about candidate 1",
      "Filter by specific skills", "View candidate portfolios"] :
        List String) ≠
      ["Post a new job", "View talent market insights",
       "Adjust job requirements"])⟩

/-- C9 counterexample: for the empty collection the insight aggregation
returns an empty experience-level mapping, so the zero-count buckets do not
appear in it, contrary to the claim quantified over every collection. -/
theorem claim_C9_counterexample :
    (get_resume_insights []).experience_levels = [] ∧
    ("Entry", 0) ∉ (get_resume_insights []).experience_levels :=
  ⟨rfl, by decide⟩

/-- C9 amended: for every NON-EMPTY collection the experience-level
distribution classifies each record into exactly one of the three buckets
via the top-down first-match rules, the per-bucket counts sum to the number
of records, and all three buckets appear even with a zero count; the empty
collection instead yields an empty mapping. -/
theorem claim_C9_amended (resumes : List Resume) (h : resumes ≠ []) :
    ((get_resume_insights resumes).experience_levels).map (fun p => p.1) =
      ["Entry", "Mid", "Senior"] ∧
    (((get_resume_insights resumes).experience_levels).map (fun p => p.2)).sum =
      resumes.length ∧
    (∀ r ∈ resumes,
      classify_experience r.experience = "Entry" ∨
      classify_experience r.experience = "Mid" ∨
      classify_experience r.experience = "Senior") ∧
    (get_resume_insights resumes).experience_levels =
      [("Entry", resumes.countP
          (fun r => classify_experience r.experience == "Entry")),
       ("Mid", resumes.countP
          (fun r => classify_experience r.experience == "Mid")),
       ("Senior", resumes.countP
          (fun r => classify_experience r.experience == "Senior"))] := by
  refine ⟨?_, get_resume_insights_levels_sum resumes,
    fun r _ => classify_experience_cases r.experience, ?_⟩
  · rw [get_resume_insights_levels resumes h]
    rfl
  · rw [get_resume_insights_levels resumes h]
    rfl

/-- C9 witness: the amended statement at a concrete three-record store. -/
theorem claim_C9_witness :
    (([sampleResumeA, sampleResumeB, resumeNoEmb] : List Resume) ≠ []) ∧
    (((get_resume_insights
        [sampleResumeA, sampleResumeB, resumeNoEmb]).experience_levels).map
        (fun p => p.1) = ["Entry", "Mid", "Senior"] ∧
     (((get_resume_insights
        [sampleResumeA, sampleResumeB, resumeNoEmb]).experience_levels).map
        (fun p => p.2)).sum =
       ([sampleResumeA, sampleResumeB, resumeNoEmb] : List Resume).length ∧
     (∀ r ∈ ([sampleResumeA, sampleResumeB, resumeNoEmb] : List Resume),
       classify_experience r.experience = "Entry" ∨
       classify_experience r.experience = "Mid" ∨
       classify_experience r.experience = "Senior") ∧
     (get_resume_insights
        [sampleResumeA, sampleResumeB, resumeNoEmb]).experience_levels =
       [("Entry", ([sampleResumeA, sampleResumeB, resumeNoEmb] : List Resume).countP
           (fun r => classify_experience r.experience == "Entry")),
        ("Mid", ([sampleResumeA, sampleResumeB, resumeNoEmb] : List Resume).countP
           (fun r => classify_experience r.experience == "Mid")),
        ("Senior", ([sampleResumeA, sampleResumeB, resumeNoEmb] : List Resume).countP
           (fun r => classify_experience r.experience == "Senior"))]) := by
  have h : ([sampleResumeA, sampleResumeB, resumeNoEmb] : List Resume) ≠ [] := by
    decide
  exact ⟨h, claim_C9_amended [sampleResumeA, sampleResumeB, resumeNoEmb] h⟩

/-- C10: an empty-string exclusion id is falsy in the truthiness guard and
performs no exclusion at all: both match operations behave exactly as with
an absent id, and concretely a record owned by the empty string is still
returned and counted in the total. -/
theorem claim_C10 (encode : String → List ℚ) (sim : List ℚ → List ℚ → ℚ)
    (jd rt : String) (resumes : List Resume) (jobs : List JobPosting)
    (k kj : Int) :
    match_candidates encode sim jd resumes k (some ("")) =
      match_candidates encode sim jd resumes k none ∧
    match_jobs encode sim rt jobs kj (some ("")) =
      match_jobs encode sim rt jobs kj none ∧
    (match_candidates encode0 sim0 ("jd") [resumeEmptyOwner] 5
      (some (""))).«matches» =
      [mkMatchEntry sim0 (encode0 ("jd")) resumeEmptyOwner] ∧
    (match_candidates encode0 sim0 ("jd") [resumeEmptyOwner] 5
      (some (""))).total_candidates = some 1 := by
  refine ⟨?_, ?_, by decide, by decide⟩
  · unfold match_candidates
    rw [filterExcludedResumes_emptyStr]
  · unfold match_jobs
    rw [filterExcludedJobs_emptyStr]
